import Mathlib

/-
Verification of the enrichment-and-aggregation pipeline of the
Healthcare_Fraud_Detection project.

The Python source works on nested dicts.  We embed events as structures
whose fields are `Option`-valued: `none` models an absent dict key and
`some v` a present one, so that Python's `d.get(k, default)` becomes an
explicit match on the `Option`.  The one place where a present-but-None
dict value is observable (`action['target_resource_id']`, which is fed
to `re.search` and raises `TypeError` when it is `None`) is modelled by
the two-constructor type `PyStr`.
-/

namespace HFD

/-- A Python value that is either a string or `None`.  Used for the
`target_resource_id` entry of the `action` block, where the aggregator
passes the raw value to `re.search` (raising `TypeError` on `None`). -/
inductive PyStr where
  | s (v : String)
  | pynull
deriving DecidableEq

/-- The `metrics` sub-dict of a device block. -/
structure Metrics where
  heart_rate_bpm : Option Int
  spo2_percent : Option Int
deriving DecidableEq

/-- Row of `SELECT full_name, role, is_on_shift FROM staff` (doctor lookup). -/
structure DoctorInfo where
  full_name : String
  role : String
  is_on_shift : Bool
deriving DecidableEq

/-- Row of `SELECT device_type, location, department, ip_address FROM devices`. -/
structure DeviceInfo where
  device_type : String
  location : String
  department : String
  ip_address : String
deriving DecidableEq

/-- Row of `SELECT full_name, current_room, assigned_doctor_id FROM patients`;
`assigned_doctor_id` is a nullable foreign key. -/
structure PatientInfo where
  full_name : String
  current_room : String
  assigned_doctor_id : Option String
deriving DecidableEq

/-- Row of `SELECT full_name, role, department, access_level, is_on_shift FROM staff`
(user lookup of the network enricher). -/
structure UserInfo where
  full_name : String
  role : String
  department : String
  access_level : Int
  is_on_shift : Bool
deriving DecidableEq

/-- Row of `SELECT device_id, device_type, location FROM devices WHERE ip_address = ...`. -/
structure SourceDeviceInfo where
  device_id : String
  device_type : String
  location : String
deriving DecidableEq

/-- The `device` block of an enriched event (enricher `base_event['device']`,
plus the keys added by `update(device_info)`). -/
structure DeviceBlock where
  id : Option String
  status : Option String
  metrics : Option Metrics
  device_type : Option String
  location : Option String
  department : Option String
  ip_address : Option String
deriving DecidableEq

/-- The `patient` block of an enriched event. -/
structure PatientBlock where
  id : Option String
  full_name : Option String
  current_room : Option String
  assigned_doctor_id : Option String
  assigned_doctor_details : Option DoctorInfo
deriving DecidableEq

/-- The `network` block of an enriched event. -/
structure NetworkBlock where
  source_ip : Option String
  log_source : Option String
  source_device_details : Option SourceDeviceInfo
deriving DecidableEq

/-- The `action` block of an enriched event. -/
structure ActionBlock where
  type : Option String
  target_resource_id : Option PyStr
deriving DecidableEq

/-- The `user` block of an enriched event. -/
structure UserBlock where
  id : Option String
  full_name : Option String
  role : Option String
  department : Option String
  access_level : Option Int
  is_on_shift : Option Bool
deriving DecidableEq

/-- An event dict as produced by the enricher and consumed by the
aggregator and the sink. -/
structure Event where
  eventType : Option String
  timestamp : Option String
  raw_payload : Option String
  device : Option DeviceBlock
  patient : Option PatientBlock
  network : Option NetworkBlock
  action : Option ActionBlock
  user : Option UserBlock
deriving DecidableEq

/-- Reference Lookup: the five point queries issued by the enricher
(`DatabaseConnector.fetch_one_as_dict`; `none` models both a missing row
and a failed query, which the connector also turns into `None`). -/
structure RefDB where
  device_by_id : String → Option DeviceInfo
  patient_by_id : String → Option PatientInfo
  staff_doctor_by_id : String → Option DoctorInfo
  staff_user_by_id : String → Option UserInfo
  device_by_ip : String → Option SourceDeviceInfo

/-- A reference database in which every lookup misses. -/
def noRefDB : RefDB :=
  { device_by_id := fun _ => none
    patient_by_id := fun _ => none
    staff_doctor_by_id := fun _ => none
    staff_user_by_id := fun _ => none
    device_by_ip := fun _ => none }

/-- Python `str.split(',')`: split on every comma, keeping empty pieces. -/
def splitCommaAux : List Char → List Char → List String
  | [], acc => [String.mk acc.reverse]
  | c :: rest, acc =>
    if c = ',' then String.mk acc.reverse :: splitCommaAux rest []
    else splitCommaAux rest (c :: acc)

/-- Python `payload.split(',')`. -/
def splitComma (s : String) : List String := splitCommaAux s.data []

/-- Accumulating decimal parser: succeeds only if every character is a digit. -/
def parseDigitsAux : List Char → Nat → Option Nat
  | [], acc => some acc
  | c :: rest, acc =>
    if c.isDigit then parseDigitsAux rest (acc * 10 + (c.toNat - 48)) else none

/-- Python `int(s)` on a decimal string: optional sign followed by at least
one digit (whitespace/underscore digit grouping is not modelled). -/
def str_to_int (s : String) : Option Int :=
  match s.data with
  | [] => none
  | '-' :: rest =>
    if rest.isEmpty then none
    else (parseDigitsAux rest 0).map (fun n => -(n : Int))
  | '+' :: rest =>
    if rest.isEmpty then none
    else (parseDigitsAux rest 0).map (fun n => (n : Int))
  | cs => (parseDigitsAux cs 0).map (fun n => (n : Int))

/-- The standardized base event built by `process_device_message` before
any enrichment (its `base_event` dict). -/
def deviceBaseEvent (payload timestamp device_id patient_id : String)
    (hr sp : Int) (status : String) : Event :=
  { eventType := some "MedicalDeviceLog"
    timestamp := some timestamp
    raw_payload := some payload
    device := some
      { id := some device_id
        status := some status
        metrics := some { heart_rate_bpm := some hr, spo2_percent := some sp }
        device_type := none
        location := none
        department := none
        ip_address := none }
    patient := some
      { id := some patient_id
        full_name := none
        current_room := none
        assigned_doctor_id := none
        assigned_doctor_details := none }
    network := none
    action := none
    user := none }

/-- `base_event['device'].update(device_info)`. -/
def Event.updateDeviceInfo (e : Event) (info : DeviceInfo) : Event :=
  { e with device := e.device.map (fun d =>
      { d with device_type := some info.device_type
               location := some info.location
               department := some info.department
               ip_address := some info.ip_address }) }

/-- `base_event['patient'].update(patient_info)`; `assigned_doctor_id`
carries the (possibly null) column value. -/
def Event.updatePatientInfo (e : Event) (info : PatientInfo) : Event :=
  { e with patient := e.patient.map (fun p =>
      { p with full_name := some info.full_name
               current_room := some info.current_room
               assigned_doctor_id := info.assigned_doctor_id }) }

/-- `base_event['patient']['assigned_doctor_details'] = doctor_info`. -/
def Event.setDoctorDetails (e : Event) (info : DoctorInfo) : Event :=
  { e with patient := e.patient.map (fun p =>
      { p with assigned_doctor_details := some info }) }

/-- `base_event['user'].update(user_info)`. -/
def Event.updateUserInfo (e : Event) (info : UserInfo) : Event :=
  { e with user := e.user.map (fun u =>
      { u with full_name := some info.full_name
               role := some info.role
               department := some info.department
               access_level := some info.access_level
               is_on_shift := some info.is_on_shift }) }

/-- `base_event['network']['source_device_details'] = device_info`. -/
def Event.setSourceDeviceDetails (e : Event) (info : SourceDeviceInfo) : Event :=
  { e with network := e.network.map (fun n =>
      { n with source_device_details := some info }) }

/-- `enricher.process_device_message`: split on commas, require exactly 6
fields, parse the two metrics as ints (a `ValueError` aborts with `None`),
build the base event and apply the three reference-data overlays. -/
def process_device_message (payload : String) (db : RefDB) : Option Event :=
  let parts := splitComma payload
  if parts.length = 6 then
    match parts with
    | [timestamp, device_id, patient_id, heart_rate, spo2, status] =>
      match str_to_int heart_rate, str_to_int spo2 with
      | some hr, some sp =>
        let base := deviceBaseEvent payload timestamp device_id patient_id hr sp status
        let e1 :=
          match db.device_by_id device_id with
          | some info => base.updateDeviceInfo info
          | none => base
        let e2 :=
          match db.patient_by_id patient_id with
          | some pinfo =>
            let e2a := e1.updatePatientInfo pinfo
            match pinfo.assigned_doctor_id with
            | some did =>
              if did = "" then e2a
              else
                match db.staff_doctor_by_id did with
                | some dinfo => e2a.setDoctorDetails dinfo
                | none => e2a
            | none => e2a
          | none => e1
        some e2
      | _, _ => none
    | _ => none
  else none

/-- The standardized base event built by `process_network_message`. -/
def networkBaseEvent (payload timestamp log_source user_id source_ip
    action target_resource : String) : Event :=
  { eventType := some "NetworkAuthLog"
    timestamp := some timestamp
    raw_payload := some payload
    device := none
    patient := none
    network := some
      { source_ip := some source_ip
        log_source := some log_source
        source_device_details := none }
    action := some
      { type := some action
        target_resource_id := some (PyStr.s target_resource) }
    user := some
      { id := some user_id
        full_name := none
        role := none
        department := none
        access_level := none
        is_on_shift := none } }

/-- `enricher.process_network_message`: split on commas, require exactly 6
fields, build the base event and apply the two reference-data overlays. -/
def process_network_message (payload : String) (db : RefDB) : Option Event :=
  let parts := splitComma payload
  if parts.length = 6 then
    match parts with
    | [timestamp, log_source, user_id, source_ip, action, target_resource] =>
      let base := networkBaseEvent payload timestamp log_source user_id
        source_ip action target_resource
      let e1 :=
        match db.staff_user_by_id user_id with
        | some info => base.updateUserInfo info
        | none => base
      let e2 :=
        match db.device_by_ip source_ip with
        | some info => e1.setSourceDeviceDetails info
        | none => e1
      some e2
    | _ => none
  else none

/-- Python `event_section.get(key, prior)` where `present` is the dict entry
(`none` = key absent): a present key overwrites, an absent one keeps the
prior value. -/
def getOr (present : Option α) (prior : Option α) : Option α :=
  match present with
  | some v => some v
  | none => prior

/-- `models.PatientDT`: the living profile of one patient. -/
structure PatientDT where
  patient_id : String
  full_name : Option String
  current_room : Option String
  last_heart_rate : Option Int
  last_spo2 : Option Int
  last_device_status : Option String
  last_metric_update : Option String
  last_accessed_by_user_id : Option String
  last_access_action : Option String
  last_access_time : Option String
deriving DecidableEq

/-- `PatientDT.__init__`: every field empty except the key. -/
def PatientDT.init (pid : String) : PatientDT :=
  { patient_id := pid
    full_name := none
    current_room := none
    last_heart_rate := none
    last_spo2 := none
    last_device_status := none
    last_metric_update := none
    last_accessed_by_user_id := none
    last_access_action := none
    last_access_time := none }

/-- `PatientDT.update_from_medical_event`. -/
def PatientDT.update_from_medical_event (p : PatientDT) (e : Event) : PatientDT :=
  let p := { p with last_metric_update := e.timestamp }
  let p :=
    match e.patient with
    | some pb =>
      { p with full_name := getOr pb.full_name p.full_name
               current_room := getOr pb.current_room p.current_room }
    | none => p
  match e.device with
  | some d =>
    match d.metrics with
    | some m =>
      { p with last_heart_rate := getOr m.heart_rate_bpm p.last_heart_rate
               last_spo2 := getOr m.spo2_percent p.last_spo2
               last_device_status := getOr d.status p.last_device_status }
    | none => p
  | none => p

/-- `PatientDT.update_from_network_event`. -/
def PatientDT.update_from_network_event (p : PatientDT) (e : Event) : PatientDT :=
  let p := { p with last_access_time := e.timestamp }
  let p :=
    match e.user with
    | some u => { p with last_accessed_by_user_id := getOr u.id p.last_accessed_by_user_id }
    | none => p
  match e.action with
  | some a => { p with last_access_action := getOr a.type p.last_access_action }
  | none => p

/-- `models.DeviceDT`: the living profile of one device. -/
structure DeviceDT where
  device_id : String
  device_type : Option String
  location : Option String
  department : Option String
  ip_address : Option String
  status : Option String
  current_patient_id : Option String
  last_metric_update : Option String
  last_user_id : Option String
  last_action_from_device : Option String
  last_network_update : Option String
deriving DecidableEq

/-- `DeviceDT.__init__`: every field empty except the key. -/
def DeviceDT.init (did : String) : DeviceDT :=
  { device_id := did
    device_type := none
    location := none
    department := none
    ip_address := none
    status := none
    current_patient_id := none
    last_metric_update := none
    last_user_id := none
    last_action_from_device := none
    last_network_update := none }

/-- `DeviceDT.update_from_medical_event`: the timestamp and the linked
patient id are written unconditionally. -/
def DeviceDT.update_from_medical_event (d : DeviceDT) (e : Event)
    (pid : Option String) : DeviceDT :=
  let d := { d with last_metric_update := e.timestamp, current_patient_id := pid }
  match e.device with
  | some blk =>
    { d with device_type := getOr blk.device_type d.device_type
             location := getOr blk.location d.location
             department := getOr blk.department d.department
             ip_address := getOr blk.ip_address d.ip_address
             status := getOr blk.status d.status }
  | none => d

/-- `DeviceDT.update_from_network_event`. -/
def DeviceDT.update_from_network_event (d : DeviceDT) (e : Event) : DeviceDT :=
  let d := { d with last_network_update := e.timestamp }
  let d :=
    match e.user with
    | some u => { d with last_user_id := getOr u.id d.last_user_id }
    | none => d
  let d :=
    match e.action with
    | some a => { d with last_action_from_device := getOr a.type d.last_action_from_device }
    | none => d
  match e.network with
  | some n =>
    match n.source_device_details with
    | some det => { d with device_type := some det.device_type, location := some det.location }
    | none => d
  | none => d

/-- `models.NetworkDT`: the living profile of one source IP. -/
structure NetworkDT where
  source_ip : String
  last_user_id : Option String
  last_device_id : Option String
  last_action : Option String
  last_target_resource : Option String
  last_log_source : Option String
  last_update : Option String
deriving DecidableEq

/-- `NetworkDT.__init__`: every field empty except the key. -/
def NetworkDT.init (ip : String) : NetworkDT :=
  { source_ip := ip
    last_user_id := none
    last_device_id := none
    last_action := none
    last_target_resource := none
    last_log_source := none
    last_update := none }

/-- `NetworkDT.update_from_network_event`; a present-but-None
`target_resource_id` overwrites `last_target_resource` with None. -/
def NetworkDT.update_from_network_event (n : NetworkDT) (e : Event) : NetworkDT :=
  let n := { n with last_update := e.timestamp }
  let n :=
    match e.user with
    | some u => { n with last_user_id := getOr u.id n.last_user_id }
    | none => n
  let n :=
    match e.action with
    | some a =>
      { n with last_action := getOr a.type n.last_action
               last_target_resource :=
                 match a.target_resource_id with
                 | some (PyStr.s v) => some v
                 | some PyStr.pynull => none
                 | none => n.last_target_resource }
    | none => n
  match e.network with
  | some nb =>
    let n := { n with last_log_source := getOr nb.log_source n.last_log_source }
    match nb.source_device_details with
    | some det => { n with last_device_id := some det.device_id }
    | none => n
  | none => n

/-- Lookup in a Python dict modelled as an association list. -/
def lookupA (l : List (String × α)) (k : String) : Option α :=
  match l with
  | [] => none
  | (k', v) :: rest => if k' = k then some v else lookupA rest k

/-- Assignment `d[k] = v` in a Python dict modelled as an association list. -/
def setA (l : List (String × α)) (k : String) (v : α) : List (String × α) :=
  match l with
  | [] => [(k, v)]
  | (k', v') :: rest => if k' = k then (k, v) :: rest else (k', v') :: setA rest k v

/-- `manager.HospitalDT`: the three keyed aggregate collections. -/
structure HospitalDT where
  patients : List (String × PatientDT)
  devices : List (String × DeviceDT)
  networks : List (String × NetworkDT)
deriving DecidableEq

/-- A freshly initialized manager: all three collections empty. -/
def emptyHDT : HospitalDT := { patients := [], devices := [], networks := [] }

/-- One `(name, state)` entry of the `updated_states` list returned by
`HospitalDT.update_from_event`. -/
inductive DTState where
  | patientS (p : PatientDT)
  | deviceS (d : DeviceDT)
  | networkS (n : NetworkDT)
deriving DecidableEq

/-- `event.get('patient', \x7b\x7d).get('id')`. -/
def Event.medPatientId (e : Event) : Option String :=
  match e.patient with
  | some pb => pb.id
  | none => none

/-- `event.get('device', \x7b\x7d).get('id')`. -/
def Event.medDeviceId (e : Event) : Option String :=
  match e.device with
  | some d => d.id
  | none => none

/-- `event.get('network', \x7b\x7d).get('source_ip')`. -/
def Event.netSourceIp (e : Event) : Option String :=
  match e.network with
  | some nb => nb.source_ip
  | none => none

/-- `event.get('network', \x7b\x7d).get('source_device_details', \x7b\x7d).get('device_id')`. -/
def Event.netDeviceId (e : Event) : Option String :=
  match e.network with
  | some nb =>
    match nb.source_device_details with
    | some det => some det.device_id
    | none => none
  | none => none

/-- `event.get('action', \x7b\x7d).get('target_resource_id', '')`, as handed to
`re.search`: `none` marks the present-but-None value, on which `re.search`
raises `TypeError`. -/
def Event.netTargetResource? (e : Event) : Option String :=
  match e.action with
  | some a =>
    match a.target_resource_id with
    | some (PyStr.s v) => some v
    | some PyStr.pynull => none
    | none => some ""
  | none => some ""

/-- One step of `re.search(r'(PAT-\d+)', s)` at the current position:
match `PAT-` followed by a maximal non-empty digit run. -/
def patMatchAt : List Char → Option String
  | 'P' :: 'A' :: 'T' :: '-' :: c :: rest =>
    if c.isDigit then
      some (String.mk ('P' :: 'A' :: 'T' :: '-' :: c :: rest.takeWhile Char.isDigit))
    else none
  | _ => none

/-- Leftmost-match scan of `re.search(r'(PAT-\d+)', s)`. -/
def searchPat : List Char → Option String
  | [] => none
  | c :: rest =>
    match patMatchAt (c :: rest) with
    | some m => some m
    | none => searchPat rest

/-- `re.search(r'(PAT-\d+)', s)`, returning the matched group. -/
def re_search_pat (s : String) : Option String := searchPat s.data

/-- `if patient_id not in self.patients: self.patients[patient_id] = PatientDT(patient_id)`
followed by the lookup: the existing aggregate, or a fresh one keyed by `pid`. -/
def getPatientOr (l : List (String × PatientDT)) (pid : String) : PatientDT :=
  match lookupA l pid with
  | some p => p
  | none => PatientDT.init pid

/-- Creation-on-first-sight lookup in the device collection. -/
def getDeviceOr (l : List (String × DeviceDT)) (did : String) : DeviceDT :=
  match lookupA l did with
  | some d => d
  | none => DeviceDT.init did

/-- Creation-on-first-sight lookup in the network collection. -/
def getNetworkOr (l : List (String × NetworkDT)) (ip : String) : NetworkDT :=
  match lookupA l ip with
  | some n => n
  | none => NetworkDT.init ip

/-- `HospitalDT.update_from_event`: route one enriched event to the touched
aggregates, creating them on first sight, and return the new collections
together with the `updated_states` list.  The `try`/`except` boundary is
modelled at its one reachable raising point: `re.search` on a
present-but-None `target_resource_id` raises `TypeError`, which the
handler catches, returning the states accumulated so far (the collections
keep the updates already applied). -/
def HospitalDT.update_from_event (h : HospitalDT) (e : Event) :
    HospitalDT × List DTState :=
  if e.eventType = some "MedicalDeviceLog" then
    let patient_id := e.medPatientId
    let device_id := e.medDeviceId
    let pr :=
      match patient_id with
      | some pid =>
        if pid = "" then (h.patients, ([] : List DTState))
        else
          let p1 := (getPatientOr h.patients pid).update_from_medical_event e
          (setA h.patients pid p1, [DTState.patientS p1])
      | none => (h.patients, [])
    let dr :=
      match device_id with
      | some did =>
        if did = "" then (h.devices, ([] : List DTState))
        else
          let d1 := (getDeviceOr h.devices did).update_from_medical_event e patient_id
          (setA h.devices did d1, [DTState.deviceS d1])
      | none => (h.devices, [])
    ({ h with patients := pr.1, devices := dr.1 }, pr.2 ++ dr.2)
  else if e.eventType = some "NetworkAuthLog" then
    let nr :=
      match e.netSourceIp with
      | some ip =>
        if ip = "" then (h.networks, ([] : List DTState))
        else
          let n1 := (getNetworkOr h.networks ip).update_from_network_event e
          (setA h.networks ip n1, [DTState.networkS n1])
      | none => (h.networks, [])
    let dr :=
      match e.netDeviceId with
      | some did =>
        if did = "" then (h.devices, ([] : List DTState))
        else
          let d1 := (getDeviceOr h.devices did).update_from_network_event e
          (setA h.devices did d1, [DTState.deviceS d1])
      | none => (h.devices, [])
    match e.netTargetResource? with
    | none =>
      ({ h with networks := nr.1, devices := dr.1 }, nr.2 ++ dr.2)
    | some tr =>
      match re_search_pat tr with
      | some pid =>
        let p1 := (getPatientOr h.patients pid).update_from_network_event e
        ({ h with networks := nr.1, devices := dr.1, patients := setA h.patients pid p1 },
         nr.2 ++ dr.2 ++ [DTState.patientS p1])
      | none =>
        ({ h with networks := nr.1, devices := dr.1 }, nr.2 ++ dr.2)
  else (h, [])

/-- `DatabaseConnector.store_event`, modelled over an explicit sink list and
an oracle `sinkOk` for the database outcome: on success one row
`(event_type, timestamp, event)` is appended and `True` returned, on a
database error nothing is appended and `False` returned. -/
def store_event_model (sinkOk : Bool)
    (sink : List (Option String × Option String × Event)) (e : Event) :
    List (Option String × Option String × Event) × Bool :=
  if sinkOk then (sink ++ [(e.eventType, e.timestamp, e)], true) else (sink, false)

/-- The state owned by the processing service: the aggregate manager and
the historical sink contents. -/
structure ProcState where
  hdt : HospitalDT
  sink : List (Option String × Option String × Event)
deriving DecidableEq

/-- `main.on_message`: enrich by topic, and when an enriched event is
produced, store it in the sink and update the living aggregates; a message
that fails enrichment is dropped without touching sink or aggregates.
Returns the new state, the `updated_states` list and the storage flag. -/
def on_message (device_topic network_topic : String) (db : RefDB) (sinkOk : Bool)
    (st : ProcState) (topic payload : String) :
    ProcState × List DTState × Bool :=
  let enriched : Option Event :=
    if topic = device_topic then process_device_message payload db
    else if topic = network_topic then process_network_message payload db
    else none
  match enriched with
  | some e =>
    let sr := store_event_model sinkOk st.sink e
    let ur := st.hdt.update_from_event e
    ({ hdt := ur.1, sink := sr.1 }, ur.2, sr.2)
  | none => (st, [], false)

/-- The keys of the patient aggregates touched by an event, read off the
returned `updated_states` list. -/
def touchedPatientIds (states : List DTState) : List String :=
  states.filterMap (fun s =>
    match s with
    | DTState.patientS p => some p.patient_id
    | _ => none)

/-- Spec-side predicate: the character list contains an occurrence of
`PAT-` followed by at least one digit (a substring matching `PAT-<digits>`). -/
def hasPatId (cs : List Char) : Prop :=
  ∃ pre d rest, cs = pre ++ ('P' :: 'A' :: 'T' :: '-' :: d :: rest) ∧ d.isDigit

theorem lookupA_setA_self (l : List (String × α)) (k : String) (v : α) :
    lookupA (setA l k v) k = some v := by
  induction l with
  | nil => simp [setA, lookupA]
  | cons hd tl ih =>
    obtain ⟨k', v'⟩ := hd
    by_cases hk : k' = k
    · simp [setA, hk, lookupA]
    · simp [setA, hk, lookupA, ih]

theorem isSome_lookupA_setA (l : List (String × α)) (k k' : String) (v : α)
    (h : (lookupA l k').isSome) : (lookupA (setA l k v) k').isSome := by
  induction l with
  | nil => simp [lookupA] at h
  | cons hd tl ih =>
    obtain ⟨k0, v0⟩ := hd
    by_cases hk : k0 = k
    · subst hk
      by_cases hk' : k0 = k'
      · subst hk'
        simp [setA, lookupA]
      · simp [setA, lookupA, hk'] at h ⊢
        exact h
    · by_cases hk' : k0 = k'
      · subst hk'
        simp [setA, hk, lookupA]
      · simp [setA, hk, lookupA, hk'] at h ⊢
        exact ih h

theorem touchedPatientIds_nil : touchedPatientIds [] = [] := rfl

theorem touchedPatientIds_append (a b : List DTState) :
    touchedPatientIds (a ++ b) = touchedPatientIds a ++ touchedPatientIds b := by
  simp [touchedPatientIds]

theorem patMatchAt_isSome_iff (l : List Char) :
    (patMatchAt l).isSome ↔
      ∃ d rest, l = 'P' :: 'A' :: 'T' :: '-' :: d :: rest ∧ d.isDigit := by
  unfold patMatchAt
  split
  · rename_i c rest
    by_cases hd : c.isDigit
    · rw [if_pos hd]
      simp only [Option.isSome_some, true_iff]
      exact ⟨c, rest, rfl, hd⟩
    · rw [if_neg hd]
      constructor
      · intro hs
        exact absurd hs (by simp)
      · rintro ⟨d, r, hl, hdig⟩
        obtain ⟨rfl, rfl⟩ : c = d ∧ rest = r := by
          injection hl with h1 h2
          injection h2 with h3 h4
          injection h4 with h5 h6
          injection h6 with h7 h8
          injection h8 with h9 h10
          exact ⟨h9, h10⟩
        exact absurd hdig hd
  · rename_i hno
    constructor
    · intro hs
      exact absurd hs (by simp)
    · rintro ⟨d, r, hl, hdig⟩
      exact absurd hl (hno d r)

theorem searchPat_isSome_iff (cs : List Char) :
    (searchPat cs).isSome ↔ hasPatId cs := by
  induction cs with
  | nil =>
    constructor
    · intro hs
      exact absurd hs (by simp [searchPat])
    · rintro ⟨pre, d, r, hl, _⟩
      exact absurd hl (by simp)
  | cons c rest ih =>
    unfold searchPat
    cases hm : patMatchAt (c :: rest) with
    | some m =>
      simp only [Option.isSome_some, true_iff]
      have hs : (patMatchAt (c :: rest)).isSome := by rw [hm]; rfl
      obtain ⟨d, r, hl, hdig⟩ := (patMatchAt_isSome_iff _).mp hs
      exact ⟨[], d, r, by simpa using hl, hdig⟩
    | none =>
      simp only []
      rw [ih]
      constructor
      · rintro ⟨pre, d, r, hl, hdig⟩
        exact ⟨c :: pre, d, r, by simp [hl], hdig⟩
      · rintro ⟨pre, d, r, hl, hdig⟩
        cases pre with
        | nil =>
          exfalso
          have hs : (patMatchAt (c :: rest)).isSome :=
            (patMatchAt_isSome_iff _).mpr ⟨d, r, by simpa using hl, hdig⟩
          rw [hm] at hs
          exact absurd hs (by simp)
        | cons c0 pre0 =>
          injection hl with h1 h2
          exact ⟨pre0, d, r, h2, hdig⟩

/-- The empty dict as an event: no keys at all. -/
def emptyEvent : Event :=
  { eventType := none
    timestamp := none
    raw_payload := none
    device := none
    patient := none
    network := none
    action := none
    user := none }

/-- The `current_patient_id` written by `DeviceDT.update_from_medical_event`
is exactly the patient id passed in, whatever the event contains. -/
theorem update_from_medical_event_current_patient_id (d : DeviceDT) (e : Event)
    (pid : Option String) :
    (d.update_from_medical_event e pid).current_patient_id = pid := by
  unfold DeviceDT.update_from_medical_event
  cases e.device <;> simp

/-- C10: an event whose `eventType` is neither `MedicalDeviceLog` nor
`NetworkAuthLog` (including a missing `eventType`) yields an empty
`updated_states` list and leaves all three aggregate collections unchanged. -/
theorem c10_unknown_event_type_no_updates (h : HospitalDT) (e : Event)
    (h1 : e.eventType ≠ some "MedicalDeviceLog")
    (h2 : e.eventType ≠ some "NetworkAuthLog") :
    h.update_from_event e = (h, []) := by
  simp [HospitalDT.update_from_event, h1, h2]

/-- Witness for C10: the empty event against a fresh manager. -/
theorem c10_unknown_event_type_no_updates_witness :
    emptyHDT.update_from_event emptyEvent = (emptyHDT, []) :=
  c10_unknown_event_type_no_updates emptyHDT emptyEvent
    (by simp [emptyEvent]) (by simp [emptyEvent])

/-- C2: a payload that does not split into exactly 6 comma-separated fields
parses to no event for either kind; for the device kind a non-integer
`heart_rate_bpm` or `spo2_percent` also parses to no event; and a message
whose enrichment fails is dropped by `on_message` with the state unchanged,
zero aggregates touched and zero sink writes. -/
theorem c2_parse_failure_drops_message :
    (∀ (payload : String) (db : RefDB), (splitComma payload).length ≠ 6 →
      process_device_message payload db = none ∧
      process_network_message payload db = none) ∧
    (∀ (payload : String) (db : RefDB) (t d p hr sp st : String),
      splitComma payload = [t, d, p, hr, sp, st] →
      str_to_int hr = none ∨ str_to_int sp = none →
      process_device_message payload db = none) ∧
    (∀ (dT nT : String) (db : RefDB) (ok : Bool) (st : ProcState)
        (topic payload : String),
      (if topic = dT then process_device_message payload db
       else if topic = nT then process_network_message payload db else none) = none →
      on_message dT nT db ok st topic payload = (st, [], false)) := by
  refine ⟨?_, ?_, ?_⟩
  · intro payload db hlen
    constructor
    · simp [process_device_message, hlen]
    · simp [process_network_message, hlen]
  · intro payload db t d p hr sp st hsplit hbad
    rcases hbad with hb | hb
    · cases hsp : str_to_int sp <;>
        simp [process_device_message, hsplit, hb, hsp]
    · cases hhr : str_to_int hr <;>
        simp [process_device_message, hsplit, hb, hhr]
  · intro dT nT db ok st topic payload hnone
    simp only [on_message]
    rw [hnone]

/-- Witness for C2: a 2-field device payload and a non-numeric metric. -/
theorem c2_parse_failure_drops_message_witness :
    process_device_message "a,b" noRefDB = none ∧
    process_device_message "t,D,P,x8,97,OK" noRefDB = none ∧
    on_message "dev" "net" noRefDB true { hdt := emptyHDT, sink := [] } "dev" "a,b"
      = ({ hdt := emptyHDT, sink := [] }, [], false) :=
  ⟨(c2_parse_failure_drops_message.1 "a,b" noRefDB (by decide)).1,
   c2_parse_failure_drops_message.2.1 "t,D,P,x8,97,OK" noRefDB
     "t" "D" "P" "x8" "97" "OK" (by decide) (Or.inl (by decide)),
   c2_parse_failure_drops_message.2.2 "dev" "net" noRefDB true
     { hdt := emptyHDT, sink := [] } "dev" "a,b" (by decide)⟩

/-- C5: when every queried reference key misses, the enriched event is
structurally the standardized base (canonical) event: no overlay added,
no canonical field changed, for either event kind. -/
theorem c5_lookup_miss_is_identity :
    (∀ (payload : String) (db : RefDB) (t d p hr sp st : String) (hrv spv : Int),
      splitComma payload = [t, d, p, hr, sp, st] →
      str_to_int hr = some hrv → str_to_int sp = some spv →
      db.device_by_id d = none → db.patient_by_id p = none →
      process_device_message payload db
        = some (deviceBaseEvent payload t d p hrv spv st)) ∧
    (∀ (payload : String) (db : RefDB) (t ls u ip a tr : String),
      splitComma payload = [t, ls, u, ip, a, tr] →
      db.staff_user_by_id u = none → db.device_by_ip ip = none →
      process_network_message payload db
        = some (networkBaseEvent payload t ls u ip a tr)) := by
  constructor
  · intro payload db t d p hr sp st hrv spv hsplit hhr hsp hdev hpat
    simp [process_device_message, hsplit, hhr, hsp, hdev, hpat]
  · intro payload db t ls u ip a tr hsplit hu hip
    simp [process_network_message, hsplit, hu, hip]

/-- Witness for C5: both kinds against the all-miss reference database. -/
theorem c5_lookup_miss_is_identity_witness :
    process_device_message "t,D,P,5,6,OK" noRefDB
      = some (deviceBaseEvent "t,D,P,5,6,OK" "t" "D" "P" 5 6 "OK") ∧
    process_network_message "t,VPN,U,1.2.3.4,LOGIN,R" noRefDB
      = some (networkBaseEvent "t,VPN,U,1.2.3.4,LOGIN,R" "t" "VPN" "U" "1.2.3.4" "LOGIN" "R") :=
  ⟨c5_lookup_miss_is_identity.1 "t,D,P,5,6,OK" noRefDB "t" "D" "P" "5" "6" "OK" 5 6
     (by decide) (by decide) (by decide) rfl rfl,
   c5_lookup_miss_is_identity.2 "t,VPN,U,1.2.3.4,LOGIN,R" noRefDB
     "t" "VPN" "U" "1.2.3.4" "LOGIN" "R" (by decide) rfl rfl⟩

/-- C9: when enrichment produced an event, the aggregator is invoked on
that same event whatever `store_event` returned: the resulting living
state and touched list do not depend on the sink outcome. -/
theorem c9_sink_failure_does_not_block_update
    (dT nT : String) (db : RefDB) (st : ProcState) (topic payload : String)
    (e : Event)
    (henr : (if topic = dT then process_device_message payload db
             else if topic = nT then process_network_message payload db
             else none) = some e) :
    (∀ ok : Bool,
      (on_message dT nT db ok st topic payload).1.hdt
        = (st.hdt.update_from_event e).1 ∧
      (on_message dT nT db ok st topic payload).2.1
        = (st.hdt.update_from_event e).2) ∧
    (on_message dT nT db true st topic payload).1.hdt
      = (on_message dT nT db false st topic payload).1.hdt := by
  have hmain : ∀ ok : Bool,
      (on_message dT nT db ok st topic payload).1.hdt
        = (st.hdt.update_from_event e).1 ∧
      (on_message dT nT db ok st topic payload).2.1
        = (st.hdt.update_from_event e).2 := by
    intro ok
    simp only [on_message]
    rw [henr]
    exact ⟨rfl, rfl⟩
  refine ⟨hmain, ?_⟩
  rw [(hmain true).1, (hmain false).1]

/-- Witness for C9: a valid device payload with the sink failing. -/
theorem c9_sink_failure_does_not_block_update_witness :
    (on_message "dev" "net" noRefDB false { hdt := emptyHDT, sink := [] } "dev"
        "t,D,P,5,6,OK").1.hdt
      = (emptyHDT.update_from_event (deviceBaseEvent "t,D,P,5,6,OK" "t" "D" "P" 5 6 "OK")).1 :=
  ((c9_sink_failure_does_not_block_update "dev" "net" noRefDB
      { hdt := emptyHDT, sink := [] } "dev" "t,D,P,5,6,OK"
      (deviceBaseEvent "t,D,P,5,6,OK" "t" "D" "P" 5 6 "OK") (by decide)).1 false).1

/-- C6: a `MedicalDeviceLog` event that touches a device twin writes this
event's (possibly absent) patient id into `current_patient_id`,
last-writer-wins: the stored twin's `current_patient_id` equals the
event's `patient.id` whatever it was before. -/
theorem c6_current_patient_id_last_writer_wins (h : HospitalDT) (e : Event)
    (did : String)
    (het : e.eventType = some "MedicalDeviceLog")
    (hdid : e.medDeviceId = some did) (hne : did ≠ "") :
    (lookupA (h.update_from_event e).1.devices did).map
        (fun d => d.current_patient_id)
      = some e.medPatientId := by
  simp [HospitalDT.update_from_event, het, hdid, hne, lookupA_setA_self,
    update_from_medical_event_current_patient_id]

/-- Witness for C6: a device event with patient `PAT-9`. -/
theorem c6_current_patient_id_last_writer_wins_witness :
    (lookupA
        ((emptyHDT.update_from_event
            (deviceBaseEvent "p" "t" "DEV-1" "PAT-9" 1 2 "OK")).1.devices)
        "DEV-1").map (fun d => d.current_patient_id)
      = some (deviceBaseEvent "p" "t" "DEV-1" "PAT-9" 1 2 "OK").medPatientId :=
  c6_current_patient_id_last_writer_wins emptyHDT
    (deviceBaseEvent "p" "t" "DEV-1" "PAT-9" 1 2 "OK") "DEV-1" rfl rfl (by decide)

/-- `PatientDT.update_from_network_event` never changes the key. -/
theorem update_from_network_event_patient_id (p : PatientDT) (e : Event) :
    (p.update_from_network_event e).patient_id = p.patient_id := by
  unfold PatientDT.update_from_network_event
  cases e.user <;> cases e.action <;> simp

/-- Under the key-consistency invariant of the patient collection, the
creation-on-first-sight lookup returns an aggregate keyed by `pid`. -/
theorem getPatientOr_patient_id (l : List (String × PatientDT))
    (hwf : ∀ k p, lookupA l k = some p → p.patient_id = k) (pid : String) :
    (getPatientOr l pid).patient_id = pid := by
  unfold getPatientOr
  cases hl : lookupA l pid with
  | some p => exact hwf pid p hl
  | none => rfl

/-- C3: for a well-formed network/auth event, a patient twin is touched
exactly when `target_resource_id` contains a substring matching
`PAT-<digits>`; on a match the touched twin is keyed by the matched
identifier, and without a match the patient collection is untouched. -/
theorem c3_patient_touched_iff_pat_match (h : HospitalDT) (e : Event)
    (a : ActionBlock) (tr : String)
    (hwf : ∀ k p, lookupA h.patients k = some p → p.patient_id = k)
    (het : e.eventType = some "NetworkAuthLog")
    (ha : e.action = some a)
    (htr : a.target_resource_id = some (PyStr.s tr)) :
    ((re_search_pat tr).isSome ↔ hasPatId tr.data) ∧
    (∀ m, re_search_pat tr = some m →
      touchedPatientIds (h.update_from_event e).2 = [m] ∧
      (h.update_from_event e).1.patients
        = setA h.patients m
            ((getPatientOr h.patients m).update_from_network_event e)) ∧
    (re_search_pat tr = none →
      touchedPatientIds (h.update_from_event e).2 = [] ∧
      (h.update_from_event e).1.patients = h.patients) := by
  have hntr : e.netTargetResource? = some tr := by
    simp [Event.netTargetResource?, ha, htr]
  refine ⟨searchPat_isSome_iff tr.data, ?_, ?_⟩
  · intro m hm
    have hpid : ((getPatientOr h.patients m).update_from_network_event e).patient_id
        = m := by
      rw [update_from_network_event_patient_id]
      exact getPatientOr_patient_id h.patients hwf m
    constructor
    · simp only [HospitalDT.update_from_event, het, hntr, hm]
      rcases hsi : e.netSourceIp with _ | ip <;>
        rcases hdi : e.netDeviceId with _ | di <;>
        simp [touchedPatientIds, hpid] <;>
        split_ifs <;>
        simp [touchedPatientIds, hpid]
    · simp [HospitalDT.update_from_event, het, hntr, hm]
  · intro hm
    constructor
    · simp only [HospitalDT.update_from_event, het, hntr, hm]
      rcases hsi : e.netSourceIp with _ | ip <;>
        rcases hdi : e.netDeviceId with _ | di <;>
        simp [touchedPatientIds] <;>
        split_ifs <;>
        simp [touchedPatientIds]
    · simp [HospitalDT.update_from_event, het, hntr, hm]

/-- Witness for C3: the access target `PAT-42-CHART` touches exactly the
patient twin keyed `PAT-42`. -/
theorem c3_patient_touched_iff_pat_match_witness :
    touchedPatientIds
        ((emptyHDT.update_from_event
            (networkBaseEvent "p" "t" "VPN" "USR-7" "10.0.0.5" "LOGIN" "PAT-42-CHART")).2)
      = ["PAT-42"] :=
  ((c3_patient_touched_iff_pat_match emptyHDT
      (networkBaseEvent "p" "t" "VPN" "USR-7" "10.0.0.5" "LOGIN" "PAT-42-CHART")
      { type := some "LOGIN", target_resource_id := some (PyStr.s "PAT-42-CHART") }
      "PAT-42-CHART"
      (by intro k p hc; simp [emptyHDT, lookupA] at hc)
      rfl rfl rfl).2.1 "PAT-42" (by decide)).1

/-- No key ever disappears from the patient collection. -/
theorem patients_key_mono (h : HospitalDT) (e : Event) (k : String)
    (hk : (lookupA h.patients k).isSome) :
    (lookupA (h.update_from_event e).1.patients k).isSome := by
  unfold HospitalDT.update_from_event
  by_cases h1 : e.eventType = some "MedicalDeviceLog"
  · rw [if_pos h1]
    rcases hp : e.medPatientId with _ | pid
    · simpa using hk
    · by_cases hz : pid = ""
      · simpa [hz] using hk
      · simpa [hz] using isSome_lookupA_setA _ _ _ _ hk
  · rw [if_neg h1]
    by_cases h2 : e.eventType = some "NetworkAuthLog"
    · rw [if_pos h2]
      cases hc : e.netTargetResource? with
      | none => simpa using hk
      | some tr =>
        simp only []
        cases hr : re_search_pat tr with
        | none => simpa using hk
        | some pid => simpa using isSome_lookupA_setA _ _ _ _ hk
    · rw [if_neg h2]
      simpa using hk

/-- No key ever disappears from the device collection. -/
theorem devices_key_mono (h : HospitalDT) (e : Event) (k : String)
    (hk : (lookupA h.devices k).isSome) :
    (lookupA (h.update_from_event e).1.devices k).isSome := by
  unfold HospitalDT.update_from_event
  by_cases h1 : e.eventType = some "MedicalDeviceLog"
  · rw [if_pos h1]
    rcases hd : e.medDeviceId with _ | did
    · simpa using hk
    · by_cases hz : did = ""
      · simpa [hz] using hk
      · simpa [hz] using isSome_lookupA_setA _ _ _ _ hk
  · rw [if_neg h1]
    by_cases h2 : e.eventType = some "NetworkAuthLog"
    · rw [if_pos h2]
      cases hc : e.netTargetResource? with
      | none =>
        rcases hd : e.netDeviceId with _ | did
        · simpa using hk
        · by_cases hz : did = ""
          · simpa [hz] using hk
          · simpa [hz] using isSome_lookupA_setA _ _ _ _ hk
      | some tr =>
        simp only []
        cases hr : re_search_pat tr with
        | none =>
          rcases hd : e.netDeviceId with _ | did
          · simpa using hk
          · by_cases hz : did = ""
            · simpa [hz] using hk
            · simpa [hz] using isSome_lookupA_setA _ _ _ _ hk
        | some pid =>
          rcases hd : e.netDeviceId with _ | did
          · simpa using hk
          · by_cases hz : did = ""
            · simpa [hz] using hk
            · simpa [hz] using isSome_lookupA_setA _ _ _ _ hk
    · rw [if_neg h2]
      simpa using hk

/-- No key ever disappears from the network collection. -/
theorem networks_key_mono (h : HospitalDT) (e : Event) (k : String)
    (hk : (lookupA h.networks k).isSome) :
    (lookupA (h.update_from_event e).1.networks k).isSome := by
  unfold HospitalDT.update_from_event
  by_cases h1 : e.eventType = some "MedicalDeviceLog"
  · rw [if_pos h1]
    simpa using hk
  · rw [if_neg h1]
    by_cases h2 : e.eventType = some "NetworkAuthLog"
    · rw [if_pos h2]
      cases hc : e.netTargetResource? with
      | none =>
        rcases hs : e.netSourceIp with _ | ip
        · simpa using hk
        · by_cases hz : ip = ""
          · simpa [hz] using hk
          · simpa [hz] using isSome_lookupA_setA _ _ _ _ hk
      | some tr =>
        simp only []
        cases hr : re_search_pat tr with
        | none =>
          rcases hs : e.netSourceIp with _ | ip
          · simpa using hk
          · by_cases hz : ip = ""
            · simpa [hz] using hk
            · simpa [hz] using isSome_lookupA_setA _ _ _ _ hk
        | some pid =>
          rcases hs : e.netSourceIp with _ | ip
          · simpa using hk
          · by_cases hz : ip = ""
            · simpa [hz] using hk
            · simpa [hz] using isSome_lookupA_setA _ _ _ _ hk
    · rw [if_neg h2]
      simpa using hk

/-- C7: at each of the five routing sites, a key with no existing aggregate
gets a fresh aggregate (all fields empty except the key) which the merge
rule is then applied to; and no aggregate is ever removed: each collection's
key set grows monotonically under `update_from_event`. -/
theorem c7_creation_on_first_sight_and_monotone_keys :
    (∀ (h : HospitalDT) (e : Event) (pid : String),
      e.eventType = some "MedicalDeviceLog" → e.medPatientId = some pid →
      pid ≠ "" → lookupA h.patients pid = none →
      lookupA (h.update_from_event e).1.patients pid
        = some ((PatientDT.init pid).update_from_medical_event e)) ∧
    (∀ (h : HospitalDT) (e : Event) (did : String),
      e.eventType = some "MedicalDeviceLog" → e.medDeviceId = some did →
      did ≠ "" → lookupA h.devices did = none →
      lookupA (h.update_from_event e).1.devices did
        = some ((DeviceDT.init did).update_from_medical_event e e.medPatientId)) ∧
    (∀ (h : HospitalDT) (e : Event) (ip : String),
      e.eventType = some "NetworkAuthLog" → e.netSourceIp = some ip →
      ip ≠ "" → lookupA h.networks ip = none →
      lookupA (h.update_from_event e).1.networks ip
        = some ((NetworkDT.init ip).update_from_network_event e)) ∧
    (∀ (h : HospitalDT) (e : Event) (did : String),
      e.eventType = some "NetworkAuthLog" → e.netDeviceId = some did →
      did ≠ "" → lookupA h.devices did = none →
      lookupA (h.update_from_event e).1.devices did
        = some ((DeviceDT.init did).update_from_network_event e)) ∧
    (∀ (h : HospitalDT) (e : Event) (tr pid : String),
      e.eventType = some "NetworkAuthLog" → e.netTargetResource? = some tr →
      re_search_pat tr = some pid → lookupA h.patients pid = none →
      lookupA (h.update_from_event e).1.patients pid
        = some ((PatientDT.init pid).update_from_network_event e)) ∧
    (∀ (h : HospitalDT) (e : Event) (k : String),
      ((lookupA h.patients k).isSome →
        (lookupA (h.update_from_event e).1.patients k).isSome) ∧
      ((lookupA h.devices k).isSome →
        (lookupA (h.update_from_event e).1.devices k).isSome) ∧
      ((lookupA h.networks k).isSome →
        (lookupA (h.update_from_event e).1.networks k).isSome)) := by
  refine ⟨?_, ?_, ?_, ?_, ?_, fun h e k =>
    ⟨patients_key_mono h e k, devices_key_mono h e k, networks_key_mono h e k⟩⟩
  · intro h e pid het hp hne hnil
    simp [HospitalDT.update_from_event, het, hp, hne, getPatientOr, hnil,
      lookupA_setA_self]
  · intro h e did het hd hne hnil
    simp [HospitalDT.update_from_event, het, hd, hne, getDeviceOr, hnil,
      lookupA_setA_self]
  · intro h e ip het hip hne hnil
    have h1 : e.eventType ≠ some "MedicalDeviceLog" := by simp [het]
    cases hc : e.netTargetResource? with
    | none =>
      simp [HospitalDT.update_from_event, het, h1, hc, hip, hne, getNetworkOr,
        hnil, lookupA_setA_self]
    | some tr =>
      cases hr : re_search_pat tr <;>
        simp [HospitalDT.update_from_event, het, h1, hc, hr, hip, hne,
          getNetworkOr, hnil, lookupA_setA_self]
  · intro h e did het hd hne hnil
    have h1 : e.eventType ≠ some "MedicalDeviceLog" := by simp [het]
    cases hc : e.netTargetResource? with
    | none =>
      simp [HospitalDT.update_from_event, het, h1, hc, hd, hne, getDeviceOr,
        hnil, lookupA_setA_self]
    | some tr =>
      cases hr : re_search_pat tr <;>
        simp [HospitalDT.update_from_event, het, h1, hc, hr, hd, hne,
          getDeviceOr, hnil, lookupA_setA_self]
  · intro h e tr pid het hntr hr hnil
    have h1 : e.eventType ≠ some "MedicalDeviceLog" := by simp [het]
    simp [HospitalDT.update_from_event, het, h1, hntr, hr, getPatientOr, hnil,
      lookupA_setA_self]

/-- Witness for C7: a first-ever device event creates both twins. -/
theorem c7_creation_on_first_sight_and_monotone_keys_witness :
    lookupA
        ((emptyHDT.update_from_event
            (deviceBaseEvent "p" "t" "DEV-1" "PAT-9" 1 2 "OK")).1.patients)
        "PAT-9"
      = some ((PatientDT.init "PAT-9").update_from_medical_event
          (deviceBaseEvent "p" "t" "DEV-1" "PAT-9" 1 2 "OK")) :=
  c7_creation_on_first_sight_and_monotone_keys.1 emptyHDT
    (deviceBaseEvent "p" "t" "DEV-1" "PAT-9" 1 2 "OK") "PAT-9"
    rfl rfl (by decide) rfl

/-- A reference database holding the one device, patient and doctor used
by the enrichment scenario of the design notes. -/
def c8_db : RefDB :=
  { device_by_id := fun did =>
      if did = "DEV-1" then
        some { device_type := "Monitor", location := "ICU", department := "Cardio",
               ip_address := "10.0.0.5" }
      else none
    patient_by_id := fun pid =>
      if pid = "PAT-42" then
        some { full_name := "J. Doe", current_room := "ICU-3",
               assigned_doctor_id := some "STF-9" }
      else none
    staff_doctor_by_id := fun s =>
      if s = "STF-9" then
        some { full_name := "Dr. A", role := "Physician", is_on_shift := true }
      else none
    staff_user_by_id := fun _ => none
    device_by_ip := fun _ => none }

/-- C8: device-message enrichment performs the device, patient and (when
the patient names a doctor on a hit) staff lookups; each overlay section is
a function of its own lookup only, a miss omits only that section, and the
canonical fields are identical in every case. -/
theorem c8_three_independent_lookups (payload : String) (db : RefDB)
    (t d p hr sp st : String) (hrv spv : Int)
    (hsplit : splitComma payload = [t, d, p, hr, sp, st])
    (hhr : str_to_int hr = some hrv) (hsp : str_to_int sp = some spv) :
    (process_device_message payload db).map Event.eventType
      = some (some "MedicalDeviceLog") ∧
    (process_device_message payload db).map Event.timestamp = some (some t) ∧
    (process_device_message payload db).map Event.raw_payload
      = some (some payload) ∧
    (process_device_message payload db).map
        (fun ev => ev.device.map (fun b => (b.id, b.status, b.metrics)))
      = some (some (some d, some st,
          some { heart_rate_bpm := some hrv, spo2_percent := some spv })) ∧
    (process_device_message payload db).map
        (fun ev => ev.patient.map (fun b => b.id)) = some (some (some p)) ∧
    (process_device_message payload db).map
        (fun ev => ev.device.map
          (fun b => (b.device_type, b.location, b.department, b.ip_address)))
      = some (some (match db.device_by_id d with
          | some i => (some i.device_type, some i.location, some i.department,
              some i.ip_address)
          | none => (none, none, none, none))) ∧
    (process_device_message payload db).map
        (fun ev => ev.patient.map
          (fun b => (b.full_name, b.current_room, b.assigned_doctor_id)))
      = some (some (match db.patient_by_id p with
          | some i => (some i.full_name, some i.current_room, i.assigned_doctor_id)
          | none => (none, none, none))) ∧
    (process_device_message payload db).map
        (fun ev => ev.patient.map (fun b => b.assigned_doctor_details))
      = some (some (match db.patient_by_id p with
          | some i =>
            match i.assigned_doctor_id with
            | some did => if did = "" then none else db.staff_doctor_by_id did
            | none => none
          | none => none)) := by
  cases hpat : db.patient_by_id p with
  | none =>
    cases hdev : db.device_by_id d <;>
      simp [process_device_message, hsplit, hhr, hsp, hpat, hdev,
        deviceBaseEvent, Event.updateDeviceInfo]
  | some i =>
    cases hdid : i.assigned_doctor_id with
    | none =>
      cases hdev : db.device_by_id d <;>
        simp [process_device_message, hsplit, hhr, hsp, hpat, hdid, hdev,
          deviceBaseEvent, Event.updateDeviceInfo, Event.updatePatientInfo]
    | some did =>
      by_cases hz : did = ""
      · cases hdev : db.device_by_id d <;>
          simp [process_device_message, hsplit, hhr, hsp, hpat, hdid, hz, hdev,
            deviceBaseEvent, Event.updateDeviceInfo, Event.updatePatientInfo]
      · cases hdoc : db.staff_doctor_by_id did <;>
          cases hdev : db.device_by_id d <;>
          simp [process_device_message, hsplit, hhr, hsp, hpat, hdid, hz, hdoc,
            hdev, deviceBaseEvent, Event.updateDeviceInfo,
            Event.updatePatientInfo, Event.setDoctorDetails]

/-- Witness for C8: the full scenario with device, patient and doctor all
resolving; the doctor overlay lands under the patient section. -/
theorem c8_three_independent_lookups_witness :
    (process_device_message "2024-01-01T10:00:00Z,DEV-1,PAT-42,88,97,OK" c8_db).map
        (fun ev => ev.patient.map (fun b => b.assigned_doctor_details))
      = some (some (some (DoctorInfo.mk "Dr. A" "Physician" true))) := by
  have hx := c8_three_independent_lookups "2024-01-01T10:00:00Z,DEV-1,PAT-42,88,97,OK"
    c8_db "2024-01-01T10:00:00Z" "DEV-1" "PAT-42" "88" "97" "OK" 88 97
    (by decide) (by decide) (by decide)
  rw [hx.2.2.2.2.2.2.2]
  decide

/-- The network-branch routing up to, but not including, the patient
correlation step: steps 1 (network twin) and 2 (device twin) only. -/
def networkStepsBeforeRegex (h : HospitalDT) (e : Event) :
    HospitalDT × List DTState :=
  let nr :=
    match e.netSourceIp with
    | some ip =>
      if ip = "" then (h.networks, ([] : List DTState))
      else
        let n1 := (getNetworkOr h.networks ip).update_from_network_event e
        (setA h.networks ip n1, [DTState.networkS n1])
    | none => (h.networks, [])
  let dr :=
    match e.netDeviceId with
    | some did =>
      if did = "" then (h.devices, ([] : List DTState))
      else
        let d1 := (getDeviceOr h.devices did).update_from_network_event e
        (setA h.devices did d1, [DTState.deviceS d1])
    | none => (h.devices, [])
  ({ h with networks := nr.1, devices := dr.1 }, nr.2 ++ dr.2)

/-- An enriched-shaped event whose `action` dict carries
`target_resource_id: None`: step 3 of the network routing hands that
`None` to `re.search`, which raises `TypeError`. -/
def c4_ev : Event :=
  { eventType := some "NetworkAuthLog"
    timestamp := some "t0"
    raw_payload := none
    device := none
    patient := none
    network := some { source_ip := some "10.0.0.1", log_source := some "VPN",
                      source_device_details := none }
    action := some { type := some "LOGIN", target_resource_id := some PyStr.pynull }
    user := some { id := some "USR-1", full_name := none, role := none,
                   department := none, access_level := none, is_on_shift := none } }

/-- C4 counterexample: on `c4_ev` the exception is raised after the
network-twin update, and the handler returns one touched aggregate with the
network collection already changed — not zero aggregates and not an
unchanged collection. -/
theorem c4_counterexample_partial_update_survives :
    (emptyHDT.update_from_event c4_ev).2.length = 1 ∧
    (emptyHDT.update_from_event c4_ev).1.networks ≠ [] := by
  refine ⟨by decide, by decide⟩

/-- C4 (amended): an exception inside the routing is caught at the
aggregator boundary and `update_from_event` returns normally, so processing
continues; but the aggregates updated before the raise point stay updated
and are returned — the event is treated as "routing abandoned at the raise
point", not as "no aggregates updated". -/
theorem c4_exception_caught_partial_updates_kept (h : HospitalDT) (e : Event)
    (a : ActionBlock)
    (het : e.eventType = some "NetworkAuthLog")
    (ha : e.action = some a)
    (htr : a.target_resource_id = some PyStr.pynull) :
    h.update_from_event e = networkStepsBeforeRegex h e := by
  have h1 : e.eventType ≠ some "MedicalDeviceLog" := by simp [het]
  have hntr : e.netTargetResource? = none := by
    simp [Event.netTargetResource?, ha, htr]
  rcases hsi : e.netSourceIp with _ | ip <;>
    rcases hdi : e.netDeviceId with _ | di <;>
    simp [HospitalDT.update_from_event, networkStepsBeforeRegex, het, h1, hntr,
      hsi, hdi]

/-- Witness for C4's amended claim: the concrete raising event. -/
theorem c4_exception_caught_partial_updates_kept_witness :
    emptyHDT.update_from_event c4_ev = networkStepsBeforeRegex emptyHDT c4_ev :=
  c4_exception_caught_partial_updates_kept emptyHDT c4_ev
    { type := some "LOGIN", target_resource_id := some PyStr.pynull }
    rfl rfl rfl

/-- A reference database knowing only device `DEV-1`. -/
def c1_db : RefDB :=
  { noRefDB with device_by_id := fun did =>
      if did = "DEV-1" then some (DeviceInfo.mk "Monitor" "ICU" "Cardio" "10.0.0.5")
      else none }

/-- Process one device payload end to end against a given reference
database, keeping only the aggregate state. -/
def c1_stepWith (db : RefDB) (h : HospitalDT) (payload : String) : HospitalDT :=
  match process_device_message payload db with
  | some e => (h.update_from_event e).1
  | none => h

/-- State after a first device event whose device lookup hits. -/
def c1_h1 : HospitalDT := c1_stepWith c1_db emptyHDT "t1,DEV-1,PAT-9,88,97,OK"

/-- State after a second event supplying (among the device-info fields)
only `status`, with the device lookup missing. -/
def c1_h2 : HospitalDT := c1_stepWith noRefDB c1_h1 "t2,DEV-1,PAT-9,90,96,FAULT"

/-- State after a second event whose `status` field is present but empty. -/
def c1_h2e : HospitalDT := c1_stepWith noRefDB c1_h1 "t2,DEV-1,PAT-9,90,96,"

/-- C1 counterexample: the device twin's `status` is `"OK"` after the first
event; the second event supplies `status` as the empty string — not a
non-empty value — and the stored `status` is nevertheless overwritten to
`""`.  Merging is by key presence, not by non-emptiness. -/
theorem c1_counterexample_empty_value_overwrites :
    (lookupA c1_h1.devices "DEV-1").map (fun d => d.status) = some (some "OK") ∧
    (process_device_message "t2,DEV-1,PAT-9,90,96," noRefDB).map
        (fun ev => ev.device.map (fun b => b.status)) = some (some (some "")) ∧
    (lookupA c1_h2e.devices "DEV-1").map (fun d => d.status) = some (some "") := by
  refine ⟨by decide, by decide, by decide⟩

/-- C1 (amended): merging is by presence, not by non-emptiness — a field is
overwritten exactly when the incoming event's relevant section supplies it
(key present), whatever the value, and retained otherwise; except that the
per-rule timestamp field and (for the medical device rule)
`current_patient_id` are written unconditionally.  The two-device-event
scenario holds: a second event supplying only `status` changes `status`
and leaves `location`, `department` and `ip_address` at the first event's
values. -/
theorem c1_amended_merge_by_presence :
    (∀ (v : String) (prior : Option String), getOr (some v) prior = some v) ∧
    (∀ (prior : Option String), getOr none prior = prior) ∧
    (∀ (d : DeviceDT) (e : Event) (pid : Option String),
      (d.update_from_medical_event e pid).last_metric_update = e.timestamp ∧
      (d.update_from_medical_event e pid).current_patient_id = pid ∧
      (e.device = none →
        ((d.update_from_medical_event e pid).device_type,
         (d.update_from_medical_event e pid).location,
         (d.update_from_medical_event e pid).department,
         (d.update_from_medical_event e pid).ip_address,
         (d.update_from_medical_event e pid).status)
          = (d.device_type, d.location, d.department, d.ip_address, d.status)) ∧
      (∀ blk, e.device = some blk →
        (d.update_from_medical_event e pid).device_type
            = getOr blk.device_type d.device_type ∧
        (d.update_from_medical_event e pid).location = getOr blk.location d.location ∧
        (d.update_from_medical_event e pid).department
            = getOr blk.department d.department ∧
        (d.update_from_medical_event e pid).ip_address
            = getOr blk.ip_address d.ip_address ∧
        (d.update_from_medical_event e pid).status = getOr blk.status d.status) ∧
      ((d.update_from_medical_event e pid).last_user_id,
       (d.update_from_medical_event e pid).last_action_from_device,
       (d.update_from_medical_event e pid).last_network_update)
        = (d.last_user_id, d.last_action_from_device, d.last_network_update)) ∧
    (∀ (p : PatientDT) (e : Event),
      (p.update_from_medical_event e).last_metric_update = e.timestamp ∧
      (e.patient = none →
        ((p.update_from_medical_event e).full_name,
         (p.update_from_medical_event e).current_room)
          = (p.full_name, p.current_room)) ∧
      (∀ pb, e.patient = some pb →
        (p.update_from_medical_event e).full_name = getOr pb.full_name p.full_name ∧
        (p.update_from_medical_event e).current_room
            = getOr pb.current_room p.current_room) ∧
      (e.device = none →
        ((p.update_from_medical_event e).last_heart_rate,
         (p.update_from_medical_event e).last_spo2,
         (p.update_from_medical_event e).last_device_status)
          = (p.last_heart_rate, p.last_spo2, p.last_device_status)) ∧
      (∀ blk, e.device = some blk → blk.metrics = none →
        ((p.update_from_medical_event e).last_heart_rate,
         (p.update_from_medical_event e).last_spo2,
         (p.update_from_medical_event e).last_device_status)
          = (p.last_heart_rate, p.last_spo2, p.last_device_status)) ∧
      (∀ blk m, e.device = some blk → blk.metrics = some m →
        (p.update_from_medical_event e).last_heart_rate
            = getOr m.heart_rate_bpm p.last_heart_rate ∧
        (p.update_from_medical_event e).last_spo2
            = getOr m.spo2_percent p.last_spo2 ∧
        (p.update_from_medical_event e).last_device_status
            = getOr blk.status p.last_device_status) ∧
      ((p.update_from_medical_event e).last_accessed_by_user_id,
       (p.update_from_medical_event e).last_access_action,
       (p.update_from_medical_event e).last_access_time)
        = (p.last_accessed_by_user_id, p.last_access_action, p.last_access_time)) ∧
    (∀ (p : PatientDT) (e : Event),
      (p.update_from_network_event e).last_access_time = e.timestamp ∧
      (e.user = none →
        (p.update_from_network_event e).last_accessed_by_user_id
          = p.last_accessed_by_user_id) ∧
      (∀ u, e.user = some u →
        (p.update_from_network_event e).last_accessed_by_user_id
          = getOr u.id p.last_accessed_by_user_id) ∧
      (e.action = none →
        (p.update_from_network_event e).last_access_action = p.last_access_action) ∧
      (∀ a, e.action = some a →
        (p.update_from_network_event e).last_access_action
          = getOr a.type p.last_access_action) ∧
      ((p.update_from_network_event e).full_name,
       (p.update_from_network_event e).current_room,
       (p.update_from_network_event e).last_heart_rate,
       (p.update_from_network_event e).last_spo2,
       (p.update_from_network_event e).last_device_status,
       (p.update_from_network_event e).last_metric_update)
        = (p.full_name, p.current_room, p.last_heart_rate, p.last_spo2,
           p.last_device_status, p.last_metric_update)) ∧
    (∀ (d : DeviceDT) (e : Event),
      (d.update_from_network_event e).last_network_update = e.timestamp ∧
      (e.user = none → (d.update_from_network_event e).last_user_id = d.last_user_id) ∧
      (∀ u, e.user = some u →
        (d.update_from_network_event e).last_user_id = getOr u.id d.last_user_id) ∧
      (e.action = none →
        (d.update_from_network_event e).last_action_from_device
          = d.last_action_from_device) ∧
      (∀ a, e.action = some a →
        (d.update_from_network_event e).last_action_from_device
          = getOr a.type d.last_action_from_device) ∧
      (e.network = none →
        ((d.update_from_network_event e).device_type,
         (d.update_from_network_event e).location) = (d.device_type, d.location)) ∧
      (∀ nb, e.network = some nb → nb.source_device_details = none →
        ((d.update_from_network_event e).device_type,
         (d.update_from_network_event e).location) = (d.device_type, d.location)) ∧
      (∀ nb det, e.network = some nb → nb.source_device_details = some det →
        (d.update_from_network_event e).device_type = some det.device_type ∧
        (d.update_from_network_event e).location = some det.location) ∧
      ((d.update_from_network_event e).department,
       (d.update_from_network_event e).ip_address,
       (d.update_from_network_event e).status,
       (d.update_from_network_event e).current_patient_id,
       (d.update_from_network_event e).last_metric_update)
        = (d.department, d.ip_address, d.status, d.current_patient_id,
           d.last_metric_update)) ∧
    (∀ (n : NetworkDT) (e : Event),
      (n.update_from_network_event e).last_update = e.timestamp ∧
      (e.user = none → (n.update_from_network_event e).last_user_id = n.last_user_id) ∧
      (∀ u, e.user = some u →
        (n.update_from_network_event e).last_user_id = getOr u.id n.last_user_id) ∧
      (e.action = none →
        ((n.update_from_network_event e).last_action,
         (n.update_from_network_event e).last_target_resource)
          = (n.last_action, n.last_target_resource)) ∧
      (∀ a, e.action = some a →
        (n.update_from_network_event e).last_action = getOr a.type n.last_action ∧
        (∀ v, a.target_resource_id = some (PyStr.s v) →
          (n.update_from_network_event e).last_target_resource = some v) ∧
        (a.target_resource_id = some PyStr.pynull →
          (n.update_from_network_event e).last_target_resource = none) ∧
        (a.target_resource_id = none →
          (n.update_from_network_event e).last_target_resource
            = n.last_target_resource)) ∧
      (e.network = none →
        ((n.update_from_network_event e).last_log_source,
         (n.update_from_network_event e).last_device_id)
          = (n.last_log_source, n.last_device_id)) ∧
      (∀ nb, e.network = some nb →
        (n.update_from_network_event e).last_log_source
          = getOr nb.log_source n.last_log_source ∧
        (nb.source_device_details = none →
          (n.update_from_network_event e).last_device_id = n.last_device_id) ∧
        (∀ det, nb.source_device_details = some det →
          (n.update_from_network_event e).last_device_id = some det.device_id))) ∧
    (lookupA c1_h2.devices "DEV-1").map
        (fun d => (d.status, d.location, d.department, d.ip_address))
      = some (some "FAULT", some "ICU", some "Cardio", some "10.0.0.5") := by
  refine ⟨fun v prior => rfl, fun prior => rfl, ?_, ?_, ?_, ?_, ?_, by decide⟩
  · intro d e pid
    rcases hd : e.device with _ | blk <;>
      simp +contextual [DeviceDT.update_from_medical_event, hd]
  · intro p e
    rcases hd : e.device with _ | blk
    · rcases hp : e.patient with _ | pb <;>
        simp +contextual [PatientDT.update_from_medical_event, hd, hp]
    · rcases hm : blk.metrics with _ | m <;>
        rcases hp : e.patient with _ | pb <;>
        simp +contextual [PatientDT.update_from_medical_event, hd, hp, hm]
  · intro p e
    rcases hu : e.user with _ | u <;>
      rcases ha : e.action with _ | a <;>
      simp +contextual [PatientDT.update_from_network_event, hu, ha]
  · intro d e
    rcases hn : e.network with _ | nb
    · rcases hu : e.user with _ | u <;>
        rcases ha : e.action with _ | a <;>
        simp +contextual [DeviceDT.update_from_network_event, hu, ha, hn]
    · rcases hsd : nb.source_device_details with _ | det <;>
        rcases hu : e.user with _ | u <;>
        rcases ha : e.action with _ | a <;>
        simp +contextual [DeviceDT.update_from_network_event, hu, ha, hn, hsd]
  · intro n e
    rcases hn : e.network with _ | nb
    · rcases hu : e.user with _ | u <;>
        rcases ha : e.action with _ | a <;>
        simp +contextual [NetworkDT.update_from_network_event, hu, ha, hn]
    · rcases hsd : nb.source_device_details with _ | det <;>
        rcases hu : e.user with _ | u <;>
        rcases ha : e.action with _ | a <;>
        simp +contextual [NetworkDT.update_from_network_event, hu, ha, hn, hsd]

/-- Witness for C1's amended claim: with no `device` section in the event,
the five device-info fields are all retained. -/
theorem c1_amended_merge_by_presence_witness :
    (((DeviceDT.init "D").update_from_medical_event emptyEvent (some "P")).device_type,
     ((DeviceDT.init "D").update_from_medical_event emptyEvent (some "P")).location,
     ((DeviceDT.init "D").update_from_medical_event emptyEvent (some "P")).department,
     ((DeviceDT.init "D").update_from_medical_event emptyEvent (some "P")).ip_address,
     ((DeviceDT.init "D").update_from_medical_event emptyEvent (some "P")).status)
      = ((DeviceDT.init "D").device_type, (DeviceDT.init "D").location,
         (DeviceDT.init "D").department, (DeviceDT.init "D").ip_address,
         (DeviceDT.init "D").status) :=
  (c1_amended_merge_by_presence.2.2.1 (DeviceDT.init "D") emptyEvent
    (some "P")).2.2.1 rfl

end HFD
